import Mathlib

/-!
Verification of the voice-ai-app job orchestration core.

This file gives a shallow embedding of the repository's Python services:
the audio-processing orchestrator (`process_audio`, `_process_audio_in_background`,
`get_job_status`, `download_audio`), the storage service (`upload_audio`,
`download_audio` — here `storage_download`), the payment service (`debit_minutes`),
the user-management service (`update_user_minutes`) and the STT worker
(`process_stt`).  Remote HTTP calls are modelled by explicit environments
(`Except` results standing for a 2xx parsed body versus a raised
`httpx.HTTPStatusError` or other exception), and the in-memory dictionaries by
association lists.  Base64 payloads are carried in their transported string
representation; only their identity matters to the properties proved here.
-/

/-- Job status values used by the orchestrator (`AudioJob.status` strings in
`shared/models.py`). -/
inductive JobStatus
  | pending
  | processing
  | completed
  | failed
deriving DecidableEq, Repr

/-- The string the Python code stores for each status. -/
def JobStatus.toStr : JobStatus → String
  | .pending => "pending"
  | .processing => "processing"
  | .completed => "completed"
  | .failed => "failed"

/-- `completed` and `failed` are the terminal states. -/
def JobStatus.isTerminal : JobStatus → Bool
  | .completed => true
  | .failed => true
  | _ => false

/-- The polling order pending < processing < completed/failed. -/
def JobStatus.rank : JobStatus → Nat
  | .pending => 0
  | .processing => 1
  | .completed => 2
  | .failed => 2

/-- `job.metadata`: a Python dict from string keys to values that are either a
string or `None` (e.g. `worker_output.output_text`). -/
abbrev Metadata := List (String × Option String)

/-- `metadata[k] = v` on a dict: the key is (re)bound to `v`. -/
def metaSet (m : Metadata) (k : String) (v : Option String) : Metadata :=
  (k, v) :: m.filter (fun p => !(p.1 == k))

/-- `metadata.get(k)`: `None` both when the key is absent and when the stored
value is `None`, as in Python. -/
def metaGet (m : Metadata) (k : String) : Option String :=
  (m.lookup k).join

/-- `AudioJob` from `shared/models.py`. -/
structure AudioJob where
  job_id : String
  user_id : String
  input_audio_path : Option String := none
  output_audio_path : Option String := none
  requested_capability : String
  chosen_model : String
  status : JobStatus := .pending
  metadata : Metadata := []
deriving DecidableEq, Repr

/-- `AudioProcessRequest` from `shared/models.py`. -/
structure AudioProcessRequest where
  user_id : String
  input_audio_b64 : Option String := none
  input_text : Option String := none
  capability : String
  model_name : String
  parameters : Metadata := []
deriving DecidableEq, Repr

/-- `AudioProcessResponse` from `shared/models.py`: the typed worker result. -/
structure AudioProcessResponse where
  job_id : String
  status : String
  output_audio_b64 : Option String := none
  output_text : Option String := none
  message : Option String := none
deriving DecidableEq, Repr

/-- `Notification` from `shared/models.py`. -/
structure Notification where
  user_id : String
  message : String
  notification_type : String
deriving DecidableEq, Repr

/-- A FastAPI `HTTPException(status_code, detail)`. -/
structure HTTPExc where
  status_code : Nat
  detail : String
deriving DecidableEq, Repr

/-- An exception raised by a remote call: either `httpx.HTTPStatusError`
(carrying the response status code and text, raised by `raise_for_status`) or
any other `Exception` rendered to text. -/
inductive PyErr
  | httpStatus (code : Nat) (text : String)
  | other (text : String)
deriving DecidableEq, Repr

/-- The decoded JWT payload fields the orchestrator reads:
`payload.get("sub")` and `payload.get("role")`. -/
structure Caller where
  sub : Option String
  role : Option String
deriving DecidableEq, Repr

/-- The `WORKER_SERVICES` capability registry of the orchestrator. -/
def WORKER_SERVICES : List (String × String) :=
  [("tts", "http://gen-ai-worker-tts-service:8005"),
   ("stt", "http://gen-ai-worker-stt-service:8006"),
   ("noise_removal", "http://gen-ai-worker-noise-removal-service:8007")]

/-- Outcomes of the remote calls `_process_audio_in_background` can make:
the worker POST, the storage `/upload` POST for the output (returning the
stored `file_path`), and whether the notification POST succeeds. -/
structure DispatchEnv where
  workerResp : Except PyErr AudioProcessResponse
  storeResp : Except PyErr String
  notifyOk : Bool
deriving Repr

/-- The result of one background dispatch: the final job record, the sequence
of `job.status` assignments in program order (each assignment precedes an
`await` or the task's end, so each is observable by a concurrent
`get_job_status`), the notifications attempted, and whether the attempted
notification was delivered (`none` when none was attempted). -/
structure DispatchResult where
  job : AudioJob
  statusTrace : List JobStatus
  notifications : List Notification
  notifyDelivered : Option Bool
deriving DecidableEq, Repr

/-- The notification message built in the `finally` block of
`_process_audio_in_background`. -/
def notifMessage (job : AudioJob) (req : AudioProcessRequest) : String :=
  let base := "Your audio processing job \x27" ++ job.job_id ++ "\x27 for \x27" ++
    req.capability ++ "\x27 is " ++ job.status.toStr ++ "."
  if job.status = .failed then
    match metaGet job.metadata "error" with
    | some e => if e = "" then base else base ++ " Reason: " ++ e
    | none => base
  else base

/-- `_process_audio_in_background` from the orchestrator service.  The early
`return` on an unregistered capability bypasses the try/finally block, so no
notification is attempted on that path.  In the worker-completed branch the
status is assigned `completed` before the output upload is awaited; if that
upload raises, the `except` handler overwrites the status with `failed`. -/
def processAudioInBackground (job0 : AudioJob) (req : AudioProcessRequest)
    (env : DispatchEnv) : DispatchResult :=
  match WORKER_SERVICES.lookup req.capability with
  | none =>
      let job := { job0 with
        status := .failed
        metadata := metaSet job0.metadata "error"
          (some ("No worker found for capability: " ++ req.capability)) }
      { job := job
        statusTrace := [.failed]
        notifications := []
        notifyDelivered := none }
  | some _ =>
      let job1 := { job0 with status := .processing }
      let step : AudioJob × List JobStatus :=
        match env.workerResp with
        | .error (.httpStatus _ text) =>
            ({ job1 with
                status := .failed
                metadata := metaSet job1.metadata "error"
                  (some ("Worker communication error: " ++ text)) },
             [.failed])
        | .error (.other text) =>
            ({ job1 with
                status := .failed
                metadata := metaSet job1.metadata "error"
                  (some ("An unexpected error occurred during processing: " ++ text)) },
             [.failed])
        | .ok wout =>
            if wout.status = "completed" then
              let jobC := { job1 with status := .completed }
              match wout.output_audio_b64 with
              | some _ =>
                  match env.storeResp with
                  | .ok path =>
                      ({ jobC with
                          output_audio_path := some path
                          metadata := metaSet jobC.metadata "output_text" wout.output_text },
                       [.completed])
                  | .error (.httpStatus _ text) =>
                      ({ jobC with
                          status := .failed
                          metadata := metaSet jobC.metadata "error"
                            (some ("Worker communication error: " ++ text)) },
                       [.completed, .failed])
                  | .error (.other text) =>
                      ({ jobC with
                          status := .failed
                          metadata := metaSet jobC.metadata "error"
                            (some ("An unexpected error occurred during processing: " ++ text)) },
                       [.completed, .failed])
              | none => (jobC, [.completed])
            else
              ({ job1 with
                  status := .failed
                  metadata := metaSet job1.metadata "error"
                    (some (wout.message.getD "Worker reported failure.")) },
               [.failed])
      let jobF := step.1
      let ntype := if jobF.status = .completed then "job_complete" else "job_failed"
      { job := jobF
        statusTrace := .processing :: step.2
        notifications :=
          [{ user_id := req.user_id
             message := notifMessage jobF req
             notification_type := ntype }]
        notifyDelivered := some env.notifyOk }

/-- The statuses a repeated `get_status` poll of one job can observe: the
initial status of the stored record followed by each assignment made by the
background task. -/
def observedStatuses (job0 : AudioJob) (req : AudioProcessRequest)
    (env : DispatchEnv) : List JobStatus :=
  job0.status :: (processAudioInBackground job0 req env).statusTrace

/-- Outcome of the one remote call `process_audio` can make before responding:
the storage `/upload` POST for the input audio, returning the stored
`file_path`. -/
structure SubmitEnv where
  uploadResp : Except PyErr String
deriving Repr

/-- What a `process_audio` call leaves behind: the HTTP response (the new
`job_id` on success), the resulting `jobs_db`, and whether the background
dispatch task was scheduled. -/
structure SubmitOutcome where
  response : Except HTTPExc String
  db : List (String × AudioJob)
  dispatchScheduled : Bool
deriving Repr

/-- `process_audio` (the `/process-audio` endpoint) from the orchestrator.  The
job record is built first; if input audio is supplied, its upload is awaited
before the record is added to `jobs_db` and the background task is scheduled,
and an upload failure raises a 500 `HTTPException`, leaving `jobs_db`
untouched and scheduling nothing. -/
def process_audio (req : AudioProcessRequest) (newId : String)
    (db : List (String × AudioJob)) (env : SubmitEnv) : SubmitOutcome :=
  let job0 : AudioJob :=
    { job_id := newId
      user_id := req.user_id
      requested_capability := req.capability
      chosen_model := req.model_name
      metadata := req.parameters }
  match req.input_audio_b64 with
  | none =>
      { response := .ok newId, db := (newId, job0) :: db, dispatchScheduled := true }
  | some _ =>
      match env.uploadResp with
      | .ok path =>
          let job := { job0 with input_audio_path := some path }
          { response := .ok newId, db := (newId, job) :: db, dispatchScheduled := true }
      | .error (.httpStatus _ text) =>
          { response := .error ⟨500, "Failed to upload input audio: " ++ text⟩
            db := db
            dispatchScheduled := false }
      | .error (.other text) =>
          { response := .error ⟨500, "Unexpected error during input audio upload: " ++ text⟩
            db := db
            dispatchScheduled := false }

/-- The body returned by `get_job_status`. -/
structure StatusView where
  job_id : String
  status : JobStatus
  output_available : Bool
  output_text : Option String
  error_message : Option String
deriving DecidableEq, Repr

/-- `get_job_status` (the `/job-status/{job_id}` endpoint): visibility check,
then existence-and-ownership check, then a pure read of the job record. -/
def get_job_status (job_id user_id : String) (caller : Caller)
    (db : List (String × AudioJob)) : Except HTTPExc StatusView :=
  if caller.sub ≠ some user_id ∧ caller.role ≠ some "admin" then
    .error ⟨403, "Forbidden: You can only check your own job status."⟩
  else
    match db.lookup job_id with
    | none => .error ⟨404, "Job not found or not owned by user."⟩
    | some job =>
        if job.user_id ≠ user_id then
          .error ⟨404, "Job not found or not owned by user."⟩
        else
          .ok { job_id := job.job_id
                status := job.status
                output_available :=
                  decide (job.status = .completed) && job.output_audio_path.isSome
                output_text := metaGet job.metadata "output_text"
                error_message := metaGet job.metadata "error" }

/-- Outcomes of the remote calls the `download_audio` endpoint can make: the
account-status GET (paid_status, minutes_remaining), the debit POST, and the
storage download GET (returning the audio base64). -/
structure DownloadEnv where
  accountResp : Except PyErr (Bool × Int)
  debitResp : Except PyErr Unit
  fetchResp : Except PyErr String
deriving Repr

/-- An exception propagating out of the `try` block of `download_audio`: an
`httpx.HTTPStatusError` from `raise_for_status`, the `HTTPException` the body
itself raises for an unpaid account, or any other exception. -/
inductive TryExc
  | httpStatusError (code : Nat) (text : String)
  | httpException (code : Nat) (detail : String)
  | otherExc (text : String)
deriving DecidableEq, Repr

deriving instance DecidableEq for Except

/-- What one `download_audio` call did: its HTTP result (the audio base64 on
success) and which remote calls were issued. -/
structure DownloadOutcome where
  result : Except HTTPExc String
  accountCalled : Bool
  debitCalled : Bool
  fetchCalled : Bool
deriving DecidableEq, Repr

/-- The `try` block of `download_audio`: account status, the unpaid check, the
debit, then the fetch, each step reached only if the previous one did not
raise.  Returns the body's result or the escaping exception, plus which
remote calls were made. -/
def downloadTryBody (env : DownloadEnv) :
    Except TryExc String × Bool × Bool × Bool :=
  match env.accountResp with
  | .error (.httpStatus c t) => (.error (.httpStatusError c t), true, false, false)
  | .error (.other t) => (.error (.otherExc t), true, false, false)
  | .ok (paid, minutes) =>
      if paid = false ∨ minutes ≤ 0 then
        (.error (.httpException 402
          "Payment required to download audio. Please purchase minutes."),
         true, false, false)
      else
        match env.debitResp with
        | .error (.httpStatus c t) => (.error (.httpStatusError c t), true, true, false)
        | .error (.other t) => (.error (.otherExc t), true, true, false)
        | .ok _ =>
            match env.fetchResp with
            | .error (.httpStatus c t) => (.error (.httpStatusError c t), true, true, true)
            | .error (.other t) => (.error (.otherExc t), true, true, true)
            | .ok audio_b64 => (.ok audio_b64, true, true, true)

/-- The `except` chain of `download_audio`.  Only an `httpx.HTTPStatusError`
matches the first clause (402 passed through, anything else wrapped as 500);
every other exception — including the endpoint's own `HTTPException(402)`
raised inside the `try` — falls to the generic `except Exception` clause and
is wrapped as a 500. -/
def handleDownloadExc (e : TryExc) : HTTPExc :=
  match e with
  | .httpStatusError c t =>
      if c = 402 then
        ⟨402, "Payment required to download audio. Please purchase minutes."⟩
      else ⟨500, "Internal service error during download: " ++ t⟩
  | .httpException c d =>
      ⟨500, "An unexpected error occurred: " ++ toString c ++ ": " ++ d⟩
  | .otherExc t => ⟨500, "An unexpected error occurred: " ++ t⟩

/-- `download_audio` (the `/download-audio/{job_id}` endpoint of the
orchestrator): visibility, existence/ownership and completion checks happen
before the `try` block; only then are the account, debit and fetch calls
issued. -/
def download_audio (job_id user_id : String) (caller : Caller)
    (db : List (String × AudioJob)) (env : DownloadEnv) : DownloadOutcome :=
  if caller.sub ≠ some user_id ∧ caller.role ≠ some "admin" then
    { result := .error ⟨403, "Forbidden: You can only download your own audio."⟩
      accountCalled := false, debitCalled := false, fetchCalled := false }
  else
    match db.lookup job_id with
    | none =>
        { result := .error ⟨404, "Job not found or not owned by user."⟩
          accountCalled := false, debitCalled := false, fetchCalled := false }
    | some job =>
        if job.user_id ≠ user_id then
          { result := .error ⟨404, "Job not found or not owned by user."⟩
            accountCalled := false, debitCalled := false, fetchCalled := false }
        else if job.status ≠ .completed ∨ job.output_audio_path = none then
          { result := .error ⟨400, "Audio processing not complete or output not available."⟩
            accountCalled := false, debitCalled := false, fetchCalled := false }
        else
          match downloadTryBody env with
          | (.ok b64, a, d, f) =>
              { result := .ok b64, accountCalled := a, debitCalled := d, fetchCalled := f }
          | (.error e, a, d, f) =>
              { result := .error (handleDownloadExc e)
                accountCalled := a, debitCalled := d, fetchCalled := f }

/-- `debit_minutes` from the payment service: validates the amount, forwards a
negative `minutes_change` to the user-management `/update-minutes` call
(modelled by `updateResp`, the new balance on success), and maps that call's
failure codes. -/
def debit_minutes (user_id : String) (minutes : Int)
    (updateResp : Except PyErr Int) : Except HTTPExc String :=
  if minutes ≤ 0 then .error ⟨400, "Minutes to debit must be positive."⟩
  else
    match updateResp with
    | .ok _ =>
        .ok ("Debited " ++ toString minutes ++ " minutes from user " ++ user_id)
    | .error (.httpStatus c t) =>
        if c = 404 then .error ⟨404, "User not found for debit."⟩
        else .error ⟨c, "Failed to debit minutes: " ++ t⟩
    | .error (.other t) => .error ⟨500, "Unexpected error: " ++ t⟩

/-- `User` from `shared/models.py` (the fields `update_user_minutes` touches). -/
structure UserRec where
  id : String
  username : String
  email : String
  password : String
  role : String := "user"
  paid_status : Bool := false
  minutes_remaining : Int := 0
deriving DecidableEq, Repr

/-- Rebinding a key of the in-memory `users_db` dict; later lookups see the
new record. -/
def dbSet (db : List (String × UserRec)) (k : String) (v : UserRec) :
    List (String × UserRec) :=
  (k, v) :: db.filter (fun p => !(p.1 == k))

/-- `update_user_minutes` (the `/update-minutes` endpoint of the
user-management service): adds `minutes_change` to the balance, clamps a
negative result to 0, and recomputes `paid_status` from the new balance.
Returns the new balance on success. -/
def update_user_minutes (user_id : String) (minutes_change : Int)
    (db : List (String × UserRec)) :
    Except HTTPExc Int × List (String × UserRec) :=
  match db.lookup user_id with
  | none => (.error ⟨404, "User not found"⟩, db)
  | some user =>
      let m1 := user.minutes_remaining + minutes_change
      let m2 := if m1 < 0 then 0 else m1
      let user2 := { user with
        minutes_remaining := m2
        paid_status := if m2 > 0 then true else false }
      (.ok m2, dbSet db user_id user2)

/-- The storage service's `STORAGE_DIR`. -/
def STORAGE_DIR : String := "/app/data"

/-- Python `s.startswith(pre)`, computed on the character lists. -/
def strStartsWith (s pre : String) : Bool :=
  pre.data.isPrefixOf s.data

/-- Python `s.endswith(suf)`, computed on the character lists. -/
def strEndsWith (s suf : String) : Bool :=
  suf.data.isSuffixOf s.data

/-- Splitting a string at every path separator. -/
def splitSlashAux : List Char → List Char → List String
  | [], cur => [String.mk cur.reverse]
  | c :: cs, cur =>
      if c = '/' then String.mk cur.reverse :: splitSlashAux cs []
      else splitSlashAux cs (c :: cur)

/-- The `/`-separated components of a path string. -/
def splitSlash (s : String) : List String :=
  splitSlashAux s.data []

/-- Joining path components with `/`. -/
def joinSlash : List String → String
  | [] => ""
  | [c] => c
  | c :: cs => c ++ "/" ++ joinSlash cs

/-- `os.path.join(a, b)` for the cases arising here: an absolute `b` replaces
`a`; otherwise the two are joined with a separator. -/
def pathJoin (a b : String) : String :=
  if strStartsWith b "/" then b
  else if strEndsWith a "/" then a ++ b else a ++ "/" ++ b

/-- Resolution of `.` and `..` path components of an absolute path, as
`os.path.normpath` does (a `..` at the root is dropped). -/
def normComponents (cs : List String) : List String :=
  cs.foldl
    (fun acc c =>
      if c = "" ∨ c = "." then acc
      else if c = ".." then acc.dropLast
      else acc ++ [c])
    []

/-- `os.path.abspath`: the path made absolute against `cwd` and normalised. -/
def os_abspath (cwd p : String) : String :=
  let q := if strStartsWith p "/" then p else pathJoin cwd p
  "/" ++ joinSlash (normComponents (splitSlash q))

/-- The storage service's working directory (only relevant to `os.path.abspath`
on a relative path, which cannot arise: every path below is joined onto the
absolute `STORAGE_DIR` first). -/
def STORAGE_CWD : String := "/app"

/-- The filesystem as the storage service observes it: stored files keyed by
their canonical absolute path, holding the transported base64 representation
of their bytes. -/
abbrev FileSystem := List (String × String)

/-- `upload_audio` (the storage service's `/upload` endpoint): picks a default
file name when none (or an empty one) is given, joins it onto `STORAGE_DIR`
and writes there — with no check of where the joined path points.  The write
lands at the canonical resolution of that path. -/
def upload_audio (user_id audio_b64 : String) (file_name : Option String)
    (genId : String) (fs : FileSystem) :
    Except HTTPExc (String × String) × FileSystem :=
  let fname :=
    match file_name with
    | some n => if n = "" then "audio_" ++ user_id ++ "_" ++ genId ++ ".wav" else n
    | none => "audio_" ++ user_id ++ "_" ++ genId ++ ".wav"
  let file_path := pathJoin STORAGE_DIR fname
  (.ok ("Audio uploaded successfully (dummy)", file_path),
   (os_abspath STORAGE_CWD file_path, audio_b64) :: fs)

/-- `download_audio` of the storage service (the `/download` endpoint):
canonicalised-prefix check first; the filesystem (existence test, then read)
is touched only if the check passes.  The boolean records whether the
filesystem was accessed. -/
def storage_download (file_path user_id : String) (fs : FileSystem) :
    Except HTTPExc String × Bool :=
  let full_path := pathJoin STORAGE_DIR file_path
  if strStartsWith (os_abspath STORAGE_CWD full_path)
      (os_abspath STORAGE_CWD STORAGE_DIR) then
    match fs.lookup (os_abspath STORAGE_CWD full_path) with
    | none => (.error ⟨404, "File not found"⟩, true)
    | some content => (.ok content, true)
  else
    (.error ⟨400, "Invalid file path."⟩, false)

/-- `process_stt` (the STT worker's `/stt` endpoint): requires input audio,
then reports a completed result carrying the dummy transcription text and no
output audio. -/
def process_stt (req : AudioProcessRequest) : Except HTTPExc AudioProcessResponse :=
  match req.input_audio_b64 with
  | none => .error ⟨400, "Input audio is required for STT."⟩
  | some _ =>
      .ok { job_id := "dummy_stt_job"
            status := "completed"
            output_audio_b64 := none
            output_text := some "This is a dummy transcription."
            message := some ("Speech-to-text completed for model " ++ req.model_name) }

/-! Concrete fixtures used by the individual claim theorems. -/

/-- A freshly created TTS job record, as `process_audio` stores it. -/
def c1Job : AudioJob :=
  { job_id := "j1", user_id := "u1", requested_capability := "tts",
    chosen_model := "tortoise" }

/-- The TTS request that created `c1Job`. -/
def c1Req : AudioProcessRequest :=
  { user_id := "u1", input_text := some "hello", capability := "tts",
    model_name := "tortoise" }

/-- A dispatch environment where the worker reports a completed result with
output bytes but the blob-store upload of that output fails. -/
def c1Env : DispatchEnv :=
  { workerResp := .ok { job_id := "wk"
                        status := "completed"
                        output_audio_b64 := some "UklGRiQ=" }
    storeResp := .error (.httpStatus 500 "Failed to upload audio: disk full")
    notifyOk := true }

/-- A job submitted with the unregistered capability `voice_changer`. -/
def c2Job : AudioJob :=
  { job_id := "j2", user_id := "u1", requested_capability := "voice_changer",
    chosen_model := "m" }

/-- The request that created `c2Job`. -/
def c2Req : AudioProcessRequest :=
  { user_id := "u1", capability := "voice_changer", model_name := "m" }

/-- A dispatch environment in which every remote call would succeed. -/
def c2Env : DispatchEnv :=
  { workerResp := .ok { job_id := "wk", status := "completed" }
    storeResp := .ok "/app/data/output_j2.wav"
    notifyOk := true }

/-- A noise-removal job with a registered capability, used to instantiate the
amended notification property. -/
def c2bJob : AudioJob :=
  { job_id := "j2b", user_id := "u1", requested_capability := "noise_removal",
    chosen_model := "m" }

/-- The request that created `c2bJob`. -/
def c2bReq : AudioProcessRequest :=
  { user_id := "u1", input_audio_b64 := some "UklGRiQ=",
    capability := "noise_removal", model_name := "m" }

/-- A dispatch environment where the registered worker reports failure. -/
def c2bEnv : DispatchEnv :=
  { workerResp := .ok { job_id := "wk"
                        status := "failed"
                        message := some "model crashed" }
    storeResp := .ok "/app/data/output_j2b.wav"
    notifyOk := false }

/-- A completed job with a stored output path, eligible for download. -/
def c6Job : AudioJob :=
  { job_id := "j6", user_id := "u1", requested_capability := "tts",
    chosen_model := "m", status := .completed,
    output_audio_path := some "/app/data/output_j6.wav" }

/-- A download environment where the account is not in paid standing; the
debit and fetch calls would succeed if reached. -/
def c6Env : DownloadEnv :=
  { accountResp := .ok (false, 0), debitResp := .ok (), fetchResp := .ok "UklGRiQ=" }

/-- A download environment in which every remote call would succeed. -/
def c7Env : DownloadEnv :=
  { accountResp := .ok (true, 10), debitResp := .ok (), fetchResp := .ok "UklGRiQ=" }

/-- A still-pending job record, as stored right after submission. -/
def c7Job : AudioJob :=
  { job_id := "j7", user_id := "u1", requested_capability := "tts",
    chosen_model := "m" }

/-- The STT request whose processing exercises the text-only completed path. -/
def c9Req : AudioProcessRequest :=
  { user_id := "u1", input_audio_b64 := some "UklGRiQ=", capability := "stt",
    model_name := "whisper" }

/-- The response `process_stt` actually returns for `c9Req`. -/
def c9Resp : AudioProcessResponse :=
  { job_id := "dummy_stt_job", status := "completed", output_audio_b64 := none,
    output_text := some "This is a dummy transcription.",
    message := some "Speech-to-text completed for model whisper" }

/-- The job record created for `c9Req`. -/
def c9Job : AudioJob :=
  { job_id := "j9", user_id := "u1", requested_capability := "stt",
    chosen_model := "whisper" }

/-- A dispatch environment whose worker call returns exactly the STT worker's
response; storage and notification would succeed if called. -/
def c9Env : DispatchEnv :=
  { workerResp := .ok c9Resp, storeResp := .ok "/app/data/output_j9.wav",
    notifyOk := true }

/-! Claim theorems. -/

/-- C1: the claimed status monotonicity fails on the code.  When the worker
reports a completed result with output bytes but the blob-store upload of that
output fails, `_process_audio_in_background` assigns `completed` before
awaiting the upload and then overwrites it with `failed` in the `except`
handler, so a poll observes the job leaving the terminal state `completed`. -/
theorem C1_completed_overwritten_by_failed :
    observedStatuses c1Job c1Req c1Env =
      [.pending, .processing, .completed, .failed] ∧
    (observedStatuses c1Job c1Req c1Env)[2]? = some .completed ∧
    (observedStatuses c1Job c1Req c1Env)[3]? = some .failed ∧
    JobStatus.completed.isTerminal = true ∧
    (processAudioInBackground c1Job c1Req c1Env).job.status = .failed := by
  decide

/-- C2: the claim fails on the code.  A job whose capability has no registered
worker reaches the terminal state `failed` through the early `return` of
`_process_audio_in_background`, which bypasses the try/finally block, so no
notification at all is attempted for that terminal outcome. -/
theorem C2_no_notification_for_unregistered_capability :
    (processAudioInBackground c2Job c2Req c2Env).job.status = .failed ∧
    (processAudioInBackground c2Job c2Req c2Env).notifications = [] := by
  decide

/-- C2 (amended): when a worker is registered for the capability, exactly one
notification is attempted, with kind `job_complete` when the job ends
`completed` and `job_failed` otherwise, and the outcome of the notification
call never changes the job record; when no worker is registered, no
notification is attempted. -/
theorem C2_notification_exactly_once_when_worker_registered
    (job : AudioJob) (req : AudioProcessRequest) (env : DispatchEnv) :
    (processAudioInBackground job req env).notifications.length =
      (if (WORKER_SERVICES.lookup req.capability).isSome then 1 else 0) ∧
    (∀ n ∈ (processAudioInBackground job req env).notifications,
      n.notification_type =
        (if (processAudioInBackground job req env).job.status = .completed
         then "job_complete" else "job_failed")) ∧
    (∀ ok2 : Bool,
      (processAudioInBackground job req
        { workerResp := env.workerResp, storeResp := env.storeResp,
          notifyOk := ok2 }).job =
      (processAudioInBackground job req env).job) := by
  rcases hl : WORKER_SERVICES.lookup req.capability with _ | url <;>
    simp [processAudioInBackground, hl]

/-- C2 (witness): the amended notification property at a concrete registered
capability whose worker reports failure. -/
theorem C2_notification_witness :
    (processAudioInBackground c2bJob c2bReq c2bEnv).notifications.length =
      (if (WORKER_SERVICES.lookup c2bReq.capability).isSome then 1 else 0) :=
  (C2_notification_exactly_once_when_worker_registered c2bJob c2bReq c2bEnv).1

/-- C3: the claim fails on the code.  The storage service's upload endpoint
performs no canonicalised-prefix check at all: a file name containing a
parent-directory traversal is accepted and the write lands outside the
storage root (here at `/app/evil.wav`), with no `InvalidArgument` error. -/
theorem C3_store_accepts_traversal_path :
    (upload_audio "u1" "QUFB" (some "../evil.wav") "gid" []).1 =
      .ok ("Audio uploaded successfully (dummy)", "/app/data/../evil.wav") ∧
    (upload_audio "u1" "QUFB" (some "../evil.wav") "gid" []).2 =
      [("/app/evil.wav", "QUFB")] ∧
    strStartsWith (os_abspath STORAGE_CWD (pathJoin STORAGE_DIR "../evil.wav"))
      (os_abspath STORAGE_CWD STORAGE_DIR) = false := by
  decide

/-- C3 (amended): the download (fetch) endpoint rejects, with status 400 and
before any filesystem access, every path whose canonicalised full path does
not have the canonicalised storage root as a string prefix; the upload
(store) endpoint performs no such check. -/
theorem C3_fetch_rejects_nonprefix_path (file_path user_id : String)
    (fs : FileSystem)
    (h : strStartsWith (os_abspath STORAGE_CWD (pathJoin STORAGE_DIR file_path))
      (os_abspath STORAGE_CWD STORAGE_DIR) = false) :
    storage_download file_path user_id fs =
      (.error ⟨400, "Invalid file path."⟩, false) := by
  simp [storage_download, h]

/-- C3 (witness): the fetch rejection at a concrete traversal path. -/
theorem C3_fetch_rejects_witness :
    storage_download "../../etc/passwd" "u" [] =
      (.error ⟨400, "Invalid file path."⟩, false) :=
  C3_fetch_rejects_nonprefix_path "../../etc/passwd" "u" [] (by decide)

/-- C6: the claim fails on the code.  For a completed job with an output path
and an account not in paid standing, the endpoint's own `HTTPException(402)`
is raised inside the `try` block and caught by the generic `except Exception`
clause, so the caller receives a 500 internal error (wrapping the
payment-required message) rather than `PaymentRequired`; no debit and no
fetch are performed, and the account was queried first. -/
theorem C6_unpaid_download_returns_500_not_402 :
    download_audio "j6" "u1" { sub := some "u1", role := some "user" }
        [("j6", c6Job)] c6Env =
      { result := .error ⟨500,
          "An unexpected error occurred: 402: Payment required to download audio. Please purchase minutes."⟩
        accountCalled := true
        debitCalled := false
        fetchCalled := false } := by
  decide

/-- Looking up a key just set in the metadata yields the value set. -/
theorem metaGet_metaSet (m : Metadata) (k : String) (v : Option String) :
    metaGet (metaSet m k v) k = v := by
  simp [metaGet, metaSet, List.lookup]

/-- Every error produced by the `except` chain of `download_audio` carries
status 402 or 500. -/
theorem handleDownloadExc_status (e : TryExc) :
    (handleDownloadExc e).status_code = 402 ∨
    (handleDownloadExc e).status_code = 500 := by
  cases e with
  | httpStatusError c t =>
      by_cases h : c = 402 <;> simp [handleDownloadExc, h]
  | httpException c d => simp [handleDownloadExc]
  | otherExc t => simp [handleDownloadExc]

/-- The request used to instantiate the unknown-capability submission. -/
def c4Req : AudioProcessRequest :=
  { user_id := "u1", capability := "vibe_music", model_name := "m" }

/-- A dispatch environment for the unknown-capability run (its calls are never
reached). -/
def c4Env : DispatchEnv :=
  { workerResp := .ok { job_id := "wk", status := "completed" }
    storeResp := .ok "/app/data/out.wav"
    notifyOk := true }

/-- C4: a submission whose capability has no registered worker is not rejected
synchronously: the job record is created and its id returned, the dispatch
task is scheduled, and the background run moves the job to `failed` with a
metadata error naming the unknown capability. -/
theorem C4_unknown_capability_still_creates_job
    (req : AudioProcessRequest) (newId : String) (db : List (String × AudioJob))
    (env : SubmitEnv) (denv : DispatchEnv)
    (hcap : WORKER_SERVICES.lookup req.capability = none)
    (hup : req.input_audio_b64 = none ∨ ∃ p, env.uploadResp = .ok p) :
    ∃ job,
      (process_audio req newId db env).response = .ok newId ∧
      (process_audio req newId db env).db.lookup newId = some job ∧
      (process_audio req newId db env).dispatchScheduled = true ∧
      (processAudioInBackground job req denv).job.status = .failed ∧
      metaGet (processAudioInBackground job req denv).job.metadata "error" =
        some ("No worker found for capability: " ++ req.capability) := by
  have hbg : ∀ job : AudioJob,
      (processAudioInBackground job req denv).job.status = .failed ∧
      metaGet (processAudioInBackground job req denv).job.metadata "error" =
        some ("No worker found for capability: " ++ req.capability) := by
    intro job
    simp [processAudioInBackground, hcap, metaGet_metaSet]
  rcases hin : req.input_audio_b64 with _ | b
  · refine ⟨⟨newId, req.user_id, none, none, req.capability, req.model_name,
        .pending, req.parameters⟩, ?_, ?_, ?_, (hbg _).1, (hbg _).2⟩
    · simp [process_audio, hin]
    · simp [process_audio, hin, List.lookup]
    · simp [process_audio, hin]
  · rcases hup with hnone | ⟨p, hok⟩
    · exact absurd hin (by simp [hnone])
    · refine ⟨⟨newId, req.user_id, some p, none, req.capability, req.model_name,
          .pending, req.parameters⟩, ?_, ?_, ?_, (hbg _).1, (hbg _).2⟩
      · simp [process_audio, hin, hok]
      · simp [process_audio, hin, hok, List.lookup]
      · simp [process_audio, hin, hok]

/-- C4 (witness): the unknown capability `vibe_music` still yields an accepted
submission. -/
theorem C4_unknown_capability_witness :
    (process_audio c4Req "jid4" [] { uploadResp := .ok "/app/data/in.wav" }).response =
      .ok "jid4" := by
  obtain ⟨job, h1, h2, h3, h4, h5⟩ :=
    C4_unknown_capability_still_creates_job c4Req "jid4" []
      { uploadResp := .ok "/app/data/in.wav" } c4Env (by decide) (Or.inl rfl)
  exact h1

/-- The request used to instantiate the failing-input-upload submission. -/
def c5Req : AudioProcessRequest :=
  { user_id := "u1", input_audio_b64 := some "UklGRiQ=", capability := "tts",
    model_name := "m" }

/-- C5: when input audio is supplied and its persistence to the blob store
fails, the submit request itself fails with a 500, no job record is added,
and no dispatch is scheduled. -/
theorem C5_input_upload_failure_fails_request
    (req : AudioProcessRequest) (newId : String) (db : List (String × AudioJob))
    (env : SubmitEnv) (b : String) (e : PyErr)
    (hin : req.input_audio_b64 = some b) (hup : env.uploadResp = .error e) :
    (∃ exc, (process_audio req newId db env).response = .error exc ∧
      exc.status_code = 500) ∧
    (process_audio req newId db env).db = db ∧
    (process_audio req newId db env).dispatchScheduled = false := by
  cases e <;> simp [process_audio, hin, hup]

/-- C5 (witness): a concrete failing input upload schedules no dispatch. -/
theorem C5_input_upload_failure_witness :
    (process_audio c5Req "jid5" []
      { uploadResp := .error (.httpStatus 500 "disk full") }).dispatchScheduled =
      false :=
  (C5_input_upload_failure_fails_request c5Req "jid5" []
    { uploadResp := .error (.httpStatus 500 "disk full") } "UklGRiQ="
    (.httpStatus 500 "disk full") rfl rfl).2.2

/-- C7: for a caller that passes the visibility check and a job that exists
and is owned by the queried user but is not completed or has no output path,
download fails with status 400 before any billing or storage call. -/
theorem C7_invalid_state_before_billing_or_storage
    (job_id user_id : String) (caller : Caller) (db : List (String × AudioJob))
    (env : DownloadEnv) (job : AudioJob)
    (hvis : caller.sub = some user_id ∨ caller.role = some "admin")
    (hjob : db.lookup job_id = some job)
    (hown : job.user_id = user_id)
    (hstate : job.status ≠ .completed ∨ job.output_audio_path = none) :
    download_audio job_id user_id caller db env =
      { result := .error ⟨400, "Audio processing not complete or output not available."⟩
        accountCalled := false
        debitCalled := false
        fetchCalled := false } := by
  have hv : ¬ (caller.sub ≠ some user_id ∧ caller.role ≠ some "admin") := by
    rcases hvis with h | h <;> simp [h]
  simp only [download_audio, hjob]
  rw [if_neg hv]
  rw [if_neg (show ¬ job.user_id ≠ user_id by simp [hown])]
  rw [if_pos hstate]

/-- C7 (witness): downloading a still-pending job fails with 400 and no
remote calls. -/
theorem C7_invalid_state_witness :
    download_audio "j7" "u1" { sub := some "u1", role := some "user" }
        [("j7", c7Job)] c7Env =
      { result := .error ⟨400, "Audio processing not complete or output not available."⟩
        accountCalled := false
        debitCalled := false
        fetchCalled := false } :=
  C7_invalid_state_before_billing_or_storage "j7" "u1"
    { sub := some "u1", role := some "user" } [("j7", c7Job)] c7Env c7Job
    (Or.inl rfl) (by decide) (by decide) (Or.inl (by decide))

/-- A download environment for the visibility witness (never reached). -/
def c8Env : DownloadEnv :=
  { accountResp := .ok (true, 10), debitResp := .ok (), fetchResp := .ok "UklGRiQ=" }

/-- C8: `get_job_status` and `download_audio` return 403 exactly when the
caller is neither the queried user nor an admin; an admin is never refused
with 403 and reads the status of any existing job owned by the queried user;
and when no job with that id owned by that user exists (and visibility
passes), both return 404. -/
theorem C8_job_visibility
    (job_id user_id : String) (caller : Caller) (db : List (String × AudioJob))
    (env : DownloadEnv) :
    ((caller.sub ≠ some user_id ∧ caller.role ≠ some "admin") →
      get_job_status job_id user_id caller db =
        .error ⟨403, "Forbidden: You can only check your own job status."⟩ ∧
      (download_audio job_id user_id caller db env).result =
        .error ⟨403, "Forbidden: You can only download your own audio."⟩) ∧
    (caller.role = some "admin" →
      (∀ exc, get_job_status job_id user_id caller db = .error exc →
        exc.status_code ≠ 403) ∧
      (∀ exc, (download_audio job_id user_id caller db env).result = .error exc →
        exc.status_code ≠ 403) ∧
      (∀ job, db.lookup job_id = some job → job.user_id = user_id →
        ∃ v, get_job_status job_id user_id caller db = .ok v)) ∧
    ((caller.sub = some user_id ∨ caller.role = some "admin") →
      (∀ job, db.lookup job_id = some job → job.user_id ≠ user_id) →
      get_job_status job_id user_id caller db =
        .error ⟨404, "Job not found or not owned by user."⟩ ∧
      (download_audio job_id user_id caller db env).result =
        .error ⟨404, "Job not found or not owned by user."⟩) := by
  refine ⟨?_, ?_, ?_⟩
  · intro hv
    constructor
    · simp only [get_job_status]
      rw [if_pos hv]
    · simp only [download_audio]
      rw [if_pos hv]
  · intro hadm
    have hv : ¬ (caller.sub ≠ some user_id ∧ caller.role ≠ some "admin") := by
      simp [hadm]
    refine ⟨?_, ?_, ?_⟩
    · intro exc hexc
      rcases hjob : db.lookup job_id with _ | job
      · simp only [get_job_status, hjob] at hexc
        rw [if_neg hv] at hexc
        cases hexc
        decide
      · simp only [get_job_status, hjob] at hexc
        rw [if_neg hv] at hexc
        by_cases hq : job.user_id ≠ user_id
        · rw [if_pos hq] at hexc
          cases hexc
          decide
        · rw [if_neg hq] at hexc
          cases hexc
    · intro exc hexc
      rcases hjob : db.lookup job_id with _ | job
      · simp only [download_audio, hjob] at hexc
        rw [if_neg hv] at hexc
        cases hexc
        decide
      · simp only [download_audio, hjob] at hexc
        rw [if_neg hv] at hexc
        by_cases hq : job.user_id ≠ user_id
        · rw [if_pos hq] at hexc
          cases hexc
          decide
        · rw [if_neg hq] at hexc
          by_cases hs : job.status ≠ .completed ∨ job.output_audio_path = none
          · rw [if_pos hs] at hexc
            cases hexc
            decide
          · rw [if_neg hs] at hexc
            rcases hbody : downloadTryBody env with ⟨e2 | v, a, d, f⟩ <;>
              rw [hbody] at hexc
            · cases hexc
              rcases handleDownloadExc_status e2 with h4 | h4 <;> omega
            · cases hexc
    · intro job hjob hownj
      have hq : ¬ job.user_id ≠ user_id := by simp [hownj]
      exact ⟨_, by simp only [get_job_status, hjob]; rw [if_neg hv, if_neg hq]⟩
  · intro hvis hnf
    have hv : ¬ (caller.sub ≠ some user_id ∧ caller.role ≠ some "admin") := by
      rcases hvis with h | h <;> simp [h]
    rcases hjob : db.lookup job_id with _ | job
    · constructor
      · simp only [get_job_status, hjob]
        rw [if_neg hv]
      · simp only [download_audio, hjob]
        rw [if_neg hv]
    · have hq : job.user_id ≠ user_id := hnf job hjob
      constructor
      · simp only [get_job_status, hjob]
        rw [if_neg hv, if_pos hq]
      · simp only [download_audio, hjob]
        rw [if_neg hv, if_pos hq]

/-- C8 (witness): a non-admin caller querying another user's job gets 403. -/
theorem C8_job_visibility_witness :
    get_job_status "j8" "uA" { sub := some "uB", role := some "user" } [] =
      .error ⟨403, "Forbidden: You can only check your own job status."⟩ :=
  ((C8_job_visibility "j8" "uA" { sub := some "uB", role := some "user" } []
    c8Env).1 (by decide)).1

/-- An existing paid user for the balance-update witness. -/
def c10User : UserRec :=
  { id := "u10", username := "alice", email := "alice@example.com",
    password := "hash", paid_status := true, minutes_remaining := 3 }

/-- C10: updating the minutes of an existing user always succeeds with a
non-negative new balance — a debit below zero clamps to 0 rather than
failing — and the stored `paid_status` is true exactly when the new balance
is positive. -/
theorem C10_minutes_clamped_nonnegative
    (user_id : String) (minutes_change : Int) (db : List (String × UserRec))
    (user : UserRec) (h : db.lookup user_id = some user) :
    ∃ u2 : UserRec,
      (update_user_minutes user_id minutes_change db).1 = .ok u2.minutes_remaining ∧
      (update_user_minutes user_id minutes_change db).2.lookup user_id = some u2 ∧
      0 ≤ u2.minutes_remaining ∧
      (user.minutes_remaining + minutes_change < 0 → u2.minutes_remaining = 0) ∧
      (u2.paid_status = true ↔ 0 < u2.minutes_remaining) := by
  refine ⟨{ user with
      minutes_remaining :=
        if user.minutes_remaining + minutes_change < 0 then 0
        else user.minutes_remaining + minutes_change
      paid_status :=
        if (if user.minutes_remaining + minutes_change < 0 then 0
            else user.minutes_remaining + minutes_change) > 0 then true
        else false }, ?_, ?_, ?_, ?_, ?_⟩
  · simp [update_user_minutes, h]
  · simp [update_user_minutes, h, dbSet, List.lookup]
  · dsimp only
    split <;> omega
  · intro hneg
    simp [hneg]
  · dsimp only
    constructor
    · intro hp
      by_contra hnp
      rw [if_neg hnp] at hp
      cases hp
    · intro hp
      rw [if_pos hp]

/-- C10 (witness): debiting 5 minutes from a balance of 3 clamps to 0 and
still succeeds. -/
theorem C10_minutes_witness :
    (update_user_minutes "u10" (-5) [("u10", c10User)]).1 = .ok 0 := by
  obtain ⟨u2, h1, h2, h3, h4, h5⟩ :=
    C10_minutes_clamped_nonnegative "u10" (-5) [("u10", c10User)] c10User
      (by decide)
  rw [h4 (by decide)] at h1
  exact h1

/-- C9: the claim fails on the code.  The STT worker's actual completed
response carries text but no output bytes; because the orchestrator stores
`metadata["output_text"]` only inside the `if worker_output.output_audio_b64`
branch, the text is never recorded: the job completes with no `output_text`
key, and `get_status` reports `output_text = null` and
`output_available = false`. -/
theorem C9_stt_text_not_recorded :
    process_stt c9Req = .ok c9Resp ∧
    c9Resp.output_text = some "This is a dummy transcription." ∧
    (processAudioInBackground c9Job c9Req c9Env).job.status = .completed ∧
    ((processAudioInBackground c9Job c9Req c9Env).job.metadata).lookup
      "output_text" = none ∧
    get_job_status "j9" "u1" { sub := some "u1", role := some "user" }
        [("j9", (processAudioInBackground c9Job c9Req c9Env).job)] =
      .ok { job_id := "j9", status := .completed, output_available := false,
            output_text := none, error_message := none } := by
  decide
